import Mathlib

/-!
Shallow embedding of `src/broad_phase/collision_candidate.cpp` from the
ipc-toolkit broad-phase layer: the candidate entity types (VV, EV, EE, EF,
FV) with their equality and ordering operators, the `Candidates` aggregate
container (size / empty / clear / flat indexing), the per-kind CCD
dispatchers, and the OBJ debug writer.

Conventions of the embedding:
- C++ `long` mesh indices become `Int` (so sentinel values such as `-1`
  are representable).
- `std::vector` members become `List`.
- `throw std::out_of_range` becomes an `Except String` result carrying the
  thrown message.
- The CCD kernels (`point_edge_ccd`, `edge_edge_ccd`, `point_triangle_ccd`)
  live outside this translation unit and are taken as function parameters;
  the `double& toi` out-parameter becomes a `Bool × ℚ` return value
  (the kernel receives the incoming `toi` and yields the outgoing one).
- The OBJ writer's output is modelled as a list of emitted lines; a
  vertex line `v x y z` printed for row `r` of `V` is recorded as
  `ObjLine.vertex (V r)` where `V : Int → α` abstracts the position table.
-/

namespace ipc

/-- Constructor `VertexVertexCandidate(long vertex0_index, long vertex1_index)`: the
constructor stores both indices exactly as given (no normalization). -/
structure VertexVertexCandidate where
  vertex0_index : Int
  vertex1_index : Int
deriving DecidableEq

/-- Embeds `VertexVertexCandidate::operator==`: field-wise equality. -/
def VertexVertexCandidate.beq (a b : VertexVertexCandidate) : Bool :=
  a.vertex0_index == b.vertex0_index && a.vertex1_index == b.vertex1_index

/-- Embeds `VertexVertexCandidate::operator<`: lexicographic on
`(vertex0_index, vertex1_index)`. -/
def VertexVertexCandidate.lt (a b : VertexVertexCandidate) : Bool :=
  if a.vertex0_index == b.vertex0_index then
    decide (a.vertex1_index < b.vertex1_index)
  else
    decide (a.vertex0_index < b.vertex0_index)

/-- Constructor `EdgeVertexCandidate(long edge_index, long vertex_index)`. -/
structure EdgeVertexCandidate where
  edge_index : Int
  vertex_index : Int
deriving DecidableEq

/-- Embeds `EdgeVertexCandidate::operator==`: field-wise equality. -/
def EdgeVertexCandidate.beq (a b : EdgeVertexCandidate) : Bool :=
  a.edge_index == b.edge_index && a.vertex_index == b.vertex_index

/-- Embeds `EdgeVertexCandidate::operator<`: lexicographic on
`(edge_index, vertex_index)`. -/
def EdgeVertexCandidate.lt (a b : EdgeVertexCandidate) : Bool :=
  if a.edge_index == b.edge_index then
    decide (a.vertex_index < b.vertex_index)
  else
    decide (a.edge_index < b.edge_index)

/-- Constructor `EdgeEdgeCandidate(long edge0_index, long edge1_index)`: stores both
indices as given. -/
structure EdgeEdgeCandidate where
  edge0_index : Int
  edge1_index : Int
deriving DecidableEq

/-- Embeds `EdgeEdgeCandidate::operator==`: `(i, j) == (i, j) || (i, j) == (j, i)`. -/
def EdgeEdgeCandidate.beq (a b : EdgeEdgeCandidate) : Bool :=
  (a.edge0_index == b.edge0_index && a.edge1_index == b.edge1_index)
  || (a.edge0_index == b.edge1_index && a.edge1_index == b.edge0_index)

/-- Embeds `EdgeEdgeCandidate::operator<`: lexicographic on
`(min(edge0,edge1), max(edge0,edge1))`. -/
def EdgeEdgeCandidate.lt (a b : EdgeEdgeCandidate) : Bool :=
  let this_min := min a.edge0_index a.edge1_index
  let other_min := min b.edge0_index b.edge1_index
  if this_min == other_min then
    decide (max a.edge0_index a.edge1_index < max b.edge0_index b.edge1_index)
  else
    decide (this_min < other_min)

/-- Constructor `EdgeFaceCandidate(long edge_index, long face_index)`. -/
structure EdgeFaceCandidate where
  edge_index : Int
  face_index : Int
deriving DecidableEq

/-- Embeds `EdgeFaceCandidate::operator==`: field-wise equality. -/
def EdgeFaceCandidate.beq (a b : EdgeFaceCandidate) : Bool :=
  a.edge_index == b.edge_index && a.face_index == b.face_index

/-- Embeds `EdgeFaceCandidate::operator<`: lexicographic on
`(edge_index, face_index)`. -/
def EdgeFaceCandidate.lt (a b : EdgeFaceCandidate) : Bool :=
  if a.edge_index == b.edge_index then
    decide (a.face_index < b.face_index)
  else
    decide (a.edge_index < b.edge_index)

/-- Constructor `FaceVertexCandidate(long face_index, long vertex_index)`. -/
structure FaceVertexCandidate where
  face_index : Int
  vertex_index : Int
deriving DecidableEq

/-- Embeds `FaceVertexCandidate::operator==`: field-wise equality. -/
def FaceVertexCandidate.beq (a b : FaceVertexCandidate) : Bool :=
  a.face_index == b.face_index && a.vertex_index == b.vertex_index

/-- Embeds `FaceVertexCandidate::operator<`: lexicographic on
`(face_index, vertex_index)`. -/
def FaceVertexCandidate.lt (a b : FaceVertexCandidate) : Bool :=
  if a.face_index == b.face_index then
    decide (a.vertex_index < b.vertex_index)
  else
    decide (a.face_index < b.face_index)

/-- Embeds `EdgeVertexCandidate::ccd`: dispatches to `point_edge_ccd` on the rows
`V.row(vertex_index)`, `V.row(E(edge_index,0))`, `V.row(E(edge_index,1))`
of both snapshots, forwarding `toi, tmax, tolerance, max_iterations,
conservative_rescaling` unchanged. The external kernel is a parameter. -/
def EdgeVertexCandidate.ccd {α : Type}
    (c : EdgeVertexCandidate)
    (point_edge_ccd :
      α → α → α → α → α → α → ℚ → ℚ → ℚ → Int → ℚ → Bool × ℚ)
    (V0 V1 : Int → α) (E : Int → Nat → Int) (_F : Int → Nat → Int)
    (toi tmax tolerance : ℚ) (max_iterations : Int)
    (conservative_rescaling : ℚ) : Bool × ℚ :=
  point_edge_ccd
    (V0 c.vertex_index)
    (V0 (E c.edge_index 0)) (V0 (E c.edge_index 1))
    (V1 c.vertex_index)
    (V1 (E c.edge_index 0)) (V1 (E c.edge_index 1))
    toi tmax tolerance max_iterations conservative_rescaling

/-- Embeds `EdgeEdgeCandidate::ccd`: dispatches to `edge_edge_ccd` on the endpoint
rows of both edges at both snapshots, forwarding the scalar parameters
unchanged. -/
def EdgeEdgeCandidate.ccd {α : Type}
    (c : EdgeEdgeCandidate)
    (edge_edge_ccd :
      α → α → α → α → α → α → α → α → ℚ → ℚ → ℚ → Int → ℚ → Bool × ℚ)
    (V0 V1 : Int → α) (E : Int → Nat → Int) (_F : Int → Nat → Int)
    (toi tmax tolerance : ℚ) (max_iterations : Int)
    (conservative_rescaling : ℚ) : Bool × ℚ :=
  edge_edge_ccd
    (V0 (E c.edge0_index 0)) (V0 (E c.edge0_index 1))
    (V0 (E c.edge1_index 0)) (V0 (E c.edge1_index 1))
    (V1 (E c.edge0_index 0)) (V1 (E c.edge0_index 1))
    (V1 (E c.edge1_index 0)) (V1 (E c.edge1_index 1))
    toi tmax tolerance max_iterations conservative_rescaling

/-- Embeds `FaceVertexCandidate::ccd`: dispatches to `point_triangle_ccd` on the
vertex row and the rows `F(face_index,0..2)` at both snapshots, forwarding
the scalar parameters unchanged. -/
def FaceVertexCandidate.ccd {α : Type}
    (c : FaceVertexCandidate)
    (point_triangle_ccd :
      α → α → α → α → α → α → α → α → ℚ → ℚ → ℚ → Int → ℚ → Bool × ℚ)
    (V0 V1 : Int → α) (_E : Int → Nat → Int) (F : Int → Nat → Int)
    (toi tmax tolerance : ℚ) (max_iterations : Int)
    (conservative_rescaling : ℚ) : Bool × ℚ :=
  point_triangle_ccd
    (V0 c.vertex_index)
    (V0 (F c.face_index 0)) (V0 (F c.face_index 1)) (V0 (F c.face_index 2))
    (V1 c.vertex_index)
    (V1 (F c.face_index 0)) (V1 (F c.face_index 1)) (V1 (F c.face_index 2))
    toi tmax tolerance max_iterations conservative_rescaling

/-- Embeds `ContinuousCollisionCandidate&`: the polymorphic reference returned by
`Candidates::operator[]`, realized as a tagged variant over the three
CCD-relevant kinds actually stored in the container. -/
inductive ContinuousCollisionCandidate where
  | ev (c : EdgeVertexCandidate)
  | ee (c : EdgeEdgeCandidate)
  | fv (c : FaceVertexCandidate)
deriving DecidableEq

/-- Embeds `Candidates`: the aggregate container with the three CCD-relevant
sequences (`ev_candidates`, `ee_candidates`, `fv_candidates`). -/
structure Candidates where
  ev_candidates : List EdgeVertexCandidate
  ee_candidates : List EdgeEdgeCandidate
  fv_candidates : List FaceVertexCandidate
deriving DecidableEq

/-- Embeds `Candidates::size()`: the sum of the three sequence sizes. -/
def Candidates.size (c : Candidates) : Nat :=
  c.ev_candidates.length + c.ee_candidates.length + c.fv_candidates.length

/-- Embeds `Candidates::empty()`: all three sequences empty. -/
def Candidates.empty (c : Candidates) : Bool :=
  c.ev_candidates.isEmpty && c.ee_candidates.isEmpty
    && c.fv_candidates.isEmpty

/-- Embeds `Candidates::clear()`: clears the three sequences (modelled as the
resulting container value). -/
def Candidates.clear (_c : Candidates) : Candidates :=
  { ev_candidates := [], ee_candidates := [], fv_candidates := [] }

/-- Non-const `Candidates::operator[](size_t idx)`: the flat index walks
EV, then EE, then FV, and throws `std::out_of_range` past the end.  The
initial `idx < 0` test of the source is kept verbatim (it is vacuous for
an unsigned `size_t`, as for `Nat`). -/
def Candidates.opIndex (c : Candidates) (idx : Nat) :
    Except String ContinuousCollisionCandidate :=
  if idx < 0 then
    .error "Constraint index is out of range!"
  else if h : idx < c.ev_candidates.length then
    .ok (.ev (c.ev_candidates.get ⟨idx, h⟩))
  else
    let idx1 := idx - c.ev_candidates.length
    if h1 : idx1 < c.ee_candidates.length then
      .ok (.ee (c.ee_candidates.get ⟨idx1, h1⟩))
    else
      let idx2 := idx1 - c.ee_candidates.length
      if h2 : idx2 < c.fv_candidates.length then
        .ok (.fv (c.fv_candidates.get ⟨idx2, h2⟩))
      else
        .error "Constraint index is out of range!"

/-- Const `Candidates::operator[](size_t idx) const`: translated separately
from its own (textually identical) body. -/
def Candidates.opIndexConst (c : Candidates) (idx : Nat) :
    Except String ContinuousCollisionCandidate :=
  if idx < 0 then
    .error "Constraint index is out of range!"
  else if h : idx < c.ev_candidates.length then
    .ok (.ev (c.ev_candidates.get ⟨idx, h⟩))
  else
    let idx1 := idx - c.ev_candidates.length
    if h1 : idx1 < c.ee_candidates.length then
      .ok (.ee (c.ee_candidates.get ⟨idx1, h1⟩))
    else
      let idx2 := idx1 - c.ee_candidates.length
      if h2 : idx2 < c.fv_candidates.length then
        .ok (.fv (c.fv_candidates.get ⟨idx2, h2⟩))
      else
        .error "Constraint index is out of range!"

/-- One emitted line of the OBJ debug writer: an object header `o TAG`, a
vertex line `v x y z` (carrying the printed position `V.row(r)`), a segment
record `l i j`, or a face record `f i j k`. -/
inductive ObjLine (α : Type) where
  | obj_header (tag : String)
  | vertex (pos : α)
  | seg (i j : Int)
  | tri (i j k : Int)
deriving DecidableEq

/-- Loop body of `save_obj` for `std::vector<EdgeVertexCandidate>`: per
candidate, the two edge endpoints and the query vertex, then `l i i+1`;
the local counter `i` advances by 3. -/
def save_obj_ev_go {α : Type} (V : Int → α) (E : Int → Nat → Int)
    (i : Int) : List EdgeVertexCandidate → List (ObjLine α)
  | [] => []
  | c :: rest =>
    .vertex (V (E c.edge_index 0)) :: .vertex (V (E c.edge_index 1)) ::
    .vertex (V c.vertex_index) :: .seg i (i + 1) ::
    save_obj_ev_go V E (i + 3) rest

/-- Embeds `save_obj(out, V, E, F, ev_candidates)`: writes `o EV` then the loop
with the counter starting at `int i = 1`. -/
def save_obj_ev {α : Type} (V : Int → α) (E : Int → Nat → Int)
    (_F : Int → Nat → Int) (ev_candidates : List EdgeVertexCandidate) :
    List (ObjLine α) :=
  .obj_header "EV" :: save_obj_ev_go V E 1 ev_candidates

/-- Loop body of `save_obj` for `std::vector<EdgeEdgeCandidate>`: per
candidate, the four endpoints of the two edges, then `l i i+1` and
`l i+2 i+3`; the local counter advances by 4. -/
def save_obj_ee_go {α : Type} (V : Int → α) (E : Int → Nat → Int)
    (i : Int) : List EdgeEdgeCandidate → List (ObjLine α)
  | [] => []
  | c :: rest =>
    .vertex (V (E c.edge0_index 0)) :: .vertex (V (E c.edge0_index 1)) ::
    .vertex (V (E c.edge1_index 0)) :: .vertex (V (E c.edge1_index 1)) ::
    .seg (i + 0) (i + 1) :: .seg (i + 2) (i + 3) ::
    save_obj_ee_go V E (i + 4) rest

/-- Embeds `save_obj(out, V, E, F, ee_candidates)`: writes `o EE` then the loop
with the counter starting at `int i = 1`. -/
def save_obj_ee {α : Type} (V : Int → α) (E : Int → Nat → Int)
    (_F : Int → Nat → Int) (ee_candidates : List EdgeEdgeCandidate) :
    List (ObjLine α) :=
  .obj_header "EE" :: save_obj_ee_go V E 1 ee_candidates

/-- Loop body of `save_obj` for `std::vector<FaceVertexCandidate>`: per
candidate, the three face corners and the query vertex, then `f i i+1 i+2`;
the local counter advances by 4. -/
def save_obj_fv_go {α : Type} (V : Int → α) (F : Int → Nat → Int)
    (i : Int) : List FaceVertexCandidate → List (ObjLine α)
  | [] => []
  | c :: rest =>
    .vertex (V (F c.face_index 0)) :: .vertex (V (F c.face_index 1)) ::
    .vertex (V (F c.face_index 2)) :: .vertex (V c.vertex_index) ::
    .tri i (i + 1) (i + 2) ::
    save_obj_fv_go V F (i + 4) rest

/-- Embeds `save_obj(out, V, E, F, fv_candidates)`: writes `o FV` then the loop
with the counter starting at `int i = 1` (this overload reads only `F`). -/
def save_obj_fv {α : Type} (V : Int → α) (_E : Int → Nat → Int)
    (F : Int → Nat → Int) (fv_candidates : List FaceVertexCandidate) :
    List (ObjLine α) :=
  .obj_header "FV" :: save_obj_fv_go V F 1 fv_candidates

/-- Loop body of `save_obj` for `std::vector<EdgeFaceCandidate>`: per
candidate, the two edge endpoints and the three face corners, then
`l i i+1` and `f i+2 i+3 i+4`; the local counter advances by 5. -/
def save_obj_ef_go {α : Type} (V : Int → α) (E : Int → Nat → Int)
    (F : Int → Nat → Int) (i : Int) :
    List EdgeFaceCandidate → List (ObjLine α)
  | [] => []
  | c :: rest =>
    .vertex (V (E c.edge_index 0)) :: .vertex (V (E c.edge_index 1)) ::
    .vertex (V (F c.face_index 0)) :: .vertex (V (F c.face_index 1)) ::
    .vertex (V (F c.face_index 2)) ::
    .seg i (i + 1) :: .tri (i + 2) (i + 3) (i + 4) ::
    save_obj_ef_go V E F (i + 5) rest

/-- Embeds `save_obj(out, V, E, F, ef_candidates)`: writes `o EF` then the loop
with the counter starting at `int i = 1`.  This overload is never invoked
by `Candidates::save_obj`. -/
def save_obj_ef {α : Type} (V : Int → α) (E : Int → Nat → Int)
    (F : Int → Nat → Int) (ef_candidates : List EdgeFaceCandidate) :
    List (ObjLine α) :=
  .obj_header "EF" :: save_obj_ef_go V E F 1 ef_candidates

/-- The line sequence `Candidates::save_obj` writes after a successful
open: `save_obj(obj, V, E, F, ev_candidates)` then
`save_obj(obj, V, E, F, ee_candidates)` then
`save_obj(obj, V, F, F, fv_candidates)` (the source passes `F` in the `E`
slot of the FV overload, which ignores it). -/
def Candidates.saveObjLines {α : Type} (c : Candidates) (V : Int → α)
    (E F : Int → Nat → Int) : List (ObjLine α) :=
  save_obj_ev V E F c.ev_candidates
    ++ save_obj_ee V E F c.ee_candidates
    ++ save_obj_fv V F F c.fv_candidates

/-- Embeds `Candidates::save_obj(filename, V, E, F)`: modelled against an abstract
file environment.  `can_open` is whether `std::ofstream obj(filename)`
yields `obj.is_open()`; `write_ok` is whether the buffered stream
insertions all physically reach the file (the environment may refuse them,
e.g. on a full disk).  The source returns `false` on a failed open and
`true` otherwise; after the open test it performs the insertions and never
inspects the stream state again, so neither the returned flag nor the
attempted line sequence (the second component) depends on `write_ok`. -/
def Candidates.save_obj {α : Type} (c : Candidates)
    (can_open : Bool) (write_ok : Bool) (V : Int → α)
    (E F : Int → Nat → Int) : Bool × List (ObjLine α) :=
  if !can_open then
    (false, [])
  else
    (true, c.saveObjLines V E F)

/-- The spec-side success notion for `save_obj` ("the file could be opened
and the OBJ content was fully written"), stated from the spec's words for
comparison with the implementation's returned flag. -/
def save_obj_spec_success (can_open write_ok : Bool) : Bool :=
  can_open && write_ok

/-- Classifier on `ObjLine`: whether the line is an object header. -/
def ObjLine.isHeader {α : Type} : ObjLine α → Bool
  | .obj_header _ => true
  | _ => false

/-- Whether an `ObjLine` is a vertex line `v x y z`. -/
def ObjLine.isVertex {α : Type} : ObjLine α → Bool
  | .vertex _ => true
  | _ => false

/-- Exactly one of three propositions holds. -/
def ExactlyOne (p q r : Prop) : Prop :=
  (p ∧ ¬q ∧ ¬r) ∨ (¬p ∧ q ∧ ¬r) ∨ (¬p ∧ ¬q ∧ r)

/-- Predicate: `lt` and `beq` form a strict total order: trichotomy, transitivity and
irreflexivity. -/
def LtBeqStrictTotal {α : Type} (lt beq : α → α → Bool) : Prop :=
  (∀ a b : α, ExactlyOne (lt a b = true) (lt b a = true) (beq a b = true))
  ∧ (∀ a b c : α, lt a b = true → lt b c = true → lt a c = true)
  ∧ (∀ a : α, lt a a = false)

/-- Concrete container of scenario S5: two EV, one EE, three FV. -/
def exS5 : Candidates :=
  { ev_candidates := [⟨0, 3⟩, ⟨1, 4⟩]
    ee_candidates := [⟨0, 1⟩]
    fv_candidates := [⟨0, 5⟩, ⟨1, 6⟩, ⟨2, 7⟩] }

/-- Concrete container exercising the OBJ writer with one EV and one EE
candidate. -/
def exC5 : Candidates :=
  { ev_candidates := [⟨0, 2⟩]
    ee_candidates := [⟨0, 1⟩]
    fv_candidates := [] }

/-- Concrete position table: row `r` is recorded as the value `r`. -/
def exV : Int → Int := fun r => r

/-- Concrete edge table: edge `e` has endpoints `2*e + j`. -/
def exE : Int → Nat → Int := fun e j => 2 * e + (j : Int)

/-- Concrete face table: face `f` has corners `3*f + j`. -/
def exF : Int → Nat → Int := fun f j => 3 * f + (j : Int)

/-- Characterization of `VertexVertexCandidate.lt` as a lexicographic
proposition. -/
theorem vv_lt_iff (a b : VertexVertexCandidate) :
    VertexVertexCandidate.lt a b = true ↔
      a.vertex0_index < b.vertex0_index
      ∨ (a.vertex0_index = b.vertex0_index
         ∧ a.vertex1_index < b.vertex1_index) := by
  unfold VertexVertexCandidate.lt
  split_ifs with h <;> simp_all

/-- Characterization of `VertexVertexCandidate.beq` as a proposition. -/
theorem vv_beq_iff (a b : VertexVertexCandidate) :
    VertexVertexCandidate.beq a b = true ↔
      a.vertex0_index = b.vertex0_index
      ∧ a.vertex1_index = b.vertex1_index := by
  simp [VertexVertexCandidate.beq]

/-- Characterization of `EdgeVertexCandidate.lt` as a lexicographic
proposition. -/
theorem ev_lt_iff (a b : EdgeVertexCandidate) :
    EdgeVertexCandidate.lt a b = true ↔
      a.edge_index < b.edge_index
      ∨ (a.edge_index = b.edge_index
         ∧ a.vertex_index < b.vertex_index) := by
  unfold EdgeVertexCandidate.lt
  split_ifs with h <;> simp_all

/-- Characterization of `EdgeVertexCandidate.beq` as a proposition. -/
theorem ev_beq_iff (a b : EdgeVertexCandidate) :
    EdgeVertexCandidate.beq a b = true ↔
      a.edge_index = b.edge_index ∧ a.vertex_index = b.vertex_index := by
  simp [EdgeVertexCandidate.beq]

/-- Characterization of `EdgeEdgeCandidate.lt` as a lexicographic
proposition on `(min, max)`. -/
theorem ee_lt_iff (a b : EdgeEdgeCandidate) :
    EdgeEdgeCandidate.lt a b = true ↔
      min a.edge0_index a.edge1_index < min b.edge0_index b.edge1_index
      ∨ (min a.edge0_index a.edge1_index = min b.edge0_index b.edge1_index
         ∧ max a.edge0_index a.edge1_index
             < max b.edge0_index b.edge1_index) := by
  simp only [EdgeEdgeCandidate.lt]
  split_ifs with h <;> simp_all

/-- Characterization of `EdgeEdgeCandidate.beq` as a proposition. -/
theorem ee_beq_iff (a b : EdgeEdgeCandidate) :
    EdgeEdgeCandidate.beq a b = true ↔
      (a.edge0_index = b.edge0_index ∧ a.edge1_index = b.edge1_index)
      ∨ (a.edge0_index = b.edge1_index ∧ a.edge1_index = b.edge0_index) := by
  simp [EdgeEdgeCandidate.beq]

/-- Characterization of `EdgeFaceCandidate.lt` as a lexicographic
proposition. -/
theorem ef_lt_iff (a b : EdgeFaceCandidate) :
    EdgeFaceCandidate.lt a b = true ↔
      a.edge_index < b.edge_index
      ∨ (a.edge_index = b.edge_index ∧ a.face_index < b.face_index) := by
  unfold EdgeFaceCandidate.lt
  split_ifs with h <;> simp_all

/-- Characterization of `EdgeFaceCandidate.beq` as a proposition. -/
theorem ef_beq_iff (a b : EdgeFaceCandidate) :
    EdgeFaceCandidate.beq a b = true ↔
      a.edge_index = b.edge_index ∧ a.face_index = b.face_index := by
  simp [EdgeFaceCandidate.beq]

/-- Characterization of `FaceVertexCandidate.lt` as a lexicographic
proposition. -/
theorem fv_lt_iff (a b : FaceVertexCandidate) :
    FaceVertexCandidate.lt a b = true ↔
      a.face_index < b.face_index
      ∨ (a.face_index = b.face_index
         ∧ a.vertex_index < b.vertex_index) := by
  unfold FaceVertexCandidate.lt
  split_ifs with h <;> simp_all

/-- Characterization of `FaceVertexCandidate.beq` as a proposition. -/
theorem fv_beq_iff (a b : FaceVertexCandidate) :
    FaceVertexCandidate.beq a b = true ↔
      a.face_index = b.face_index ∧ a.vertex_index = b.vertex_index := by
  simp [FaceVertexCandidate.beq]

/-- C2 counterexample: the claim asserts `VV(a, b)` and `VV(b, a)` compare
equal with neither strictly less; at `a = 0, b = 1` the code gives
`VV(0,1) == VV(1,0)` false and `VV(0,1) < VV(1,0)` true, because the
constructor stores the indices unnormalized and the comparators do not
canonicalize. -/
theorem vv_symmetry_counterexample :
    VertexVertexCandidate.beq ⟨0, 1⟩ ⟨1, 0⟩ = false
    ∧ VertexVertexCandidate.lt ⟨0, 1⟩ ⟨1, 0⟩ = true := by
  decide

/-- C2 (amended): the `VertexVertexCandidate` constructor stores `(v0, v1)`
as given, without normalizing `v0 ≤ v1`; equality is field-wise and the
order plain lexicographic, so `VV(a, b)` and `VV(b, a)` compare equal
exactly when `a = b`, and `VV(a, b) < VV(b, a)` exactly when `a < b`
(hence for `a ≠ b` exactly one of the two is strictly less). -/
theorem vv_swap_compare (a b : Int) :
    (VertexVertexCandidate.beq ⟨a, b⟩ ⟨b, a⟩ = true ↔ a = b)
    ∧ (VertexVertexCandidate.lt ⟨a, b⟩ ⟨b, a⟩ = true ↔ a < b) := by
  constructor
  · rw [vv_beq_iff]
    dsimp only
    omega
  · rw [vv_lt_iff]
    dsimp only
    omega

/-- C3: `EE(a, b)` and `EE(b, a)` compare equal, the strict order on
edge-edge candidates is lexicographic on `(min(e0,e1), max(e0,e1))`, and
the order is invariant under swapping the two stored edge indices of
either operand. -/
theorem ee_symmetric_lex_order (a b : Int) (p q : EdgeEdgeCandidate) :
    EdgeEdgeCandidate.beq ⟨a, b⟩ ⟨b, a⟩ = true
    ∧ (EdgeEdgeCandidate.lt p q = true ↔
        min p.edge0_index p.edge1_index < min q.edge0_index q.edge1_index
        ∨ (min p.edge0_index p.edge1_index
              = min q.edge0_index q.edge1_index
           ∧ max p.edge0_index p.edge1_index
              < max q.edge0_index q.edge1_index))
    ∧ EdgeEdgeCandidate.lt ⟨p.edge1_index, p.edge0_index⟩ q
        = EdgeEdgeCandidate.lt p q
    ∧ EdgeEdgeCandidate.lt p ⟨q.edge1_index, q.edge0_index⟩
        = EdgeEdgeCandidate.lt p q := by
  refine ⟨?_, ee_lt_iff p q, ?_, ?_⟩
  · rw [ee_beq_iff]; right; exact ⟨rfl, rfl⟩
  · unfold EdgeEdgeCandidate.lt
    simp only [min_comm, max_comm]
  · unfold EdgeEdgeCandidate.lt
    simp only [min_comm, max_comm]

/-- C6: `size()` is the sum of the three CCD-relevant sequence lengths,
`empty()` holds exactly when all three sequences are empty, and `clear()`
empties exactly those three sequences. -/
theorem candidates_size_empty_clear (c : Candidates) :
    c.size = c.ev_candidates.length + c.ee_candidates.length
        + c.fv_candidates.length
    ∧ (c.empty = true ↔
        c.ev_candidates = [] ∧ c.ee_candidates = []
          ∧ c.fv_candidates = [])
    ∧ c.clear
        = { ev_candidates := [], ee_candidates := [], fv_candidates := [] } := by
  refine ⟨rfl, ?_, rfl⟩
  simp [Candidates.empty, and_assoc]

/-- C7: per candidate kind, the CCD dispatcher invokes its kernel exactly
on the indexed rows of `V0, V1, E, F` — the vertex row and `E(e,0),E(e,1)`
for EV, the endpoint rows of both edges for EE, the vertex row and
`F(f,0..2)` for FV — forwarding `toi, tmax, tolerance, max_iterations,
conservative_rescaling` unchanged. -/
theorem ccd_dispatch_rows {α : Type}
    (evc : EdgeVertexCandidate) (eec : EdgeEdgeCandidate)
    (fvc : FaceVertexCandidate)
    (point_edge_k : α → α → α → α → α → α → ℚ → ℚ → ℚ → Int → ℚ → Bool × ℚ)
    (edge_edge_k :
      α → α → α → α → α → α → α → α → ℚ → ℚ → ℚ → Int → ℚ → Bool × ℚ)
    (point_triangle_k :
      α → α → α → α → α → α → α → α → ℚ → ℚ → ℚ → Int → ℚ → Bool × ℚ)
    (V0 V1 : Int → α) (E F : Int → Nat → Int)
    (toi tmax tolerance : ℚ) (max_iterations : Int)
    (conservative_rescaling : ℚ) :
    evc.ccd point_edge_k V0 V1 E F toi tmax tolerance max_iterations
        conservative_rescaling
      = point_edge_k (V0 evc.vertex_index)
          (V0 (E evc.edge_index 0)) (V0 (E evc.edge_index 1))
          (V1 evc.vertex_index)
          (V1 (E evc.edge_index 0)) (V1 (E evc.edge_index 1))
          toi tmax tolerance max_iterations conservative_rescaling
    ∧ eec.ccd edge_edge_k V0 V1 E F toi tmax tolerance max_iterations
        conservative_rescaling
      = edge_edge_k
          (V0 (E eec.edge0_index 0)) (V0 (E eec.edge0_index 1))
          (V0 (E eec.edge1_index 0)) (V0 (E eec.edge1_index 1))
          (V1 (E eec.edge0_index 0)) (V1 (E eec.edge0_index 1))
          (V1 (E eec.edge1_index 0)) (V1 (E eec.edge1_index 1))
          toi tmax tolerance max_iterations conservative_rescaling
    ∧ fvc.ccd point_triangle_k V0 V1 E F toi tmax tolerance max_iterations
        conservative_rescaling
      = point_triangle_k (V0 fvc.vertex_index)
          (V0 (F fvc.face_index 0)) (V0 (F fvc.face_index 1))
          (V0 (F fvc.face_index 2))
          (V1 fvc.vertex_index)
          (V1 (F fvc.face_index 0)) (V1 (F fvc.face_index 1))
          (V1 (F fvc.face_index 2))
          toi tmax tolerance max_iterations conservative_rescaling :=
  ⟨rfl, rfl, rfl⟩

/-- C8 counterexample: the claim asserts the returned flag is true iff the
file was opened and the content fully written; with a successful open but
failing writes (`can_open = true`, `write_ok = false`) the code still
returns `true`, because it never inspects the stream state after the open
test. -/
theorem save_obj_success_counterexample :
    ¬ (((exS5.save_obj true false exV exE exF).1 = true) ↔
        save_obj_spec_success true false = true) := by
  decide

/-- C8 (amended): `Candidates::save_obj` returns true iff the output file
could be opened; in particular it returns false whenever opening fails,
but it does not detect write failures after a successful open. -/
theorem save_obj_returns_open_flag {α : Type} (c : Candidates)
    (can_open write_ok : Bool) (V : Int → α) (E F : Int → Nat → Int) :
    (c.save_obj can_open write_ok V E F).1 = can_open := by
  cases can_open <;> rfl

/-- C10: the const and non-const overloads of `Candidates::operator[]`
select the same candidate at every flat index and throw for the same set
of indices. -/
theorem opIndex_const_nonconst_agree (c : Candidates) (idx : Nat) :
    c.opIndex idx = c.opIndexConst idx := rfl

/-- C1: the flat index operator returns the i-th EV candidate for
`i < |ev|`, the `(i - |ev|)`-th EE candidate for `i ∈ [|ev|, |ev|+|ee|)`,
the corresponding FV candidate for `i ∈ [|ev|+|ee|, size())`, and signals
out-of-range for every `i ≥ size()`. -/
theorem candidates_flat_index (c : Candidates) (i : Nat) :
    (∀ h : i < c.ev_candidates.length,
        c.opIndex i = .ok (.ev (c.ev_candidates.get ⟨i, h⟩)))
    ∧ (∀ (_h1 : c.ev_candidates.length ≤ i)
        (h2 : i - c.ev_candidates.length < c.ee_candidates.length),
        c.opIndex i
          = .ok (.ee (c.ee_candidates.get
              ⟨i - c.ev_candidates.length, h2⟩)))
    ∧ (∀ (_h1 : c.ev_candidates.length + c.ee_candidates.length ≤ i)
        (h2 : i - c.ev_candidates.length - c.ee_candidates.length
            < c.fv_candidates.length),
        c.opIndex i
          = .ok (.fv (c.fv_candidates.get
              ⟨i - c.ev_candidates.length - c.ee_candidates.length, h2⟩)))
    ∧ (c.size ≤ i →
        c.opIndex i = .error "Constraint index is out of range!") := by
  refine ⟨?_, ?_, ?_, ?_⟩
  · intro h
    simp only [Candidates.opIndex]
    rw [if_neg (by omega), dif_pos h]
  · intro h1 h2
    simp only [Candidates.opIndex]
    rw [if_neg (by omega), dif_neg (by omega), dif_pos h2]
  · intro h1 h2
    simp only [Candidates.opIndex]
    rw [if_neg (by omega), dif_neg (by omega), dif_neg (by omega),
      dif_pos h2]
  · intro h
    simp only [Candidates.size] at h
    simp only [Candidates.opIndex]
    rw [if_neg (by omega), dif_neg (by omega), dif_neg (by omega),
      dif_neg (by omega)]

/-- Witness for C1 on the S5 container (|EV| = 2, |EE| = 1, |FV| = 3):
index 0 is the first EV, index 2 the EE, index 3 the first FV, and index
6 = size() is out of range. -/
theorem candidates_flat_index_witness :
    exS5.opIndex 0 = .ok (.ev ⟨0, 3⟩)
    ∧ exS5.opIndex 2 = .ok (.ee ⟨0, 1⟩)
    ∧ exS5.opIndex 3 = .ok (.fv ⟨0, 5⟩)
    ∧ exS5.opIndex 6 = .error "Constraint index is out of range!" := by
  refine ⟨?_, ?_, ?_, ?_⟩
  · exact (candidates_flat_index exS5 0).1 (by decide)
  · exact (candidates_flat_index exS5 2).2.1 (by decide) (by decide)
  · exact (candidates_flat_index exS5 3).2.2.1 (by decide) (by decide)
  · exact (candidates_flat_index exS5 6).2.2.2 (by decide)

/-- VV comparators form a strict total order. -/
theorem vv_strict_total :
    LtBeqStrictTotal VertexVertexCandidate.lt VertexVertexCandidate.beq := by
  refine ⟨fun a b => ?_, fun a b c hab hbc => ?_, fun a => ?_⟩
  · unfold ExactlyOne
    simp only [vv_lt_iff, vv_beq_iff]
    omega
  · rw [vv_lt_iff] at hab hbc ⊢
    omega
  · have h : ¬ (VertexVertexCandidate.lt a a = true) := by
      rw [vv_lt_iff]; omega
    cases hb : VertexVertexCandidate.lt a a
    · rfl
    · exact absurd hb h

/-- EV comparators form a strict total order. -/
theorem ev_strict_total :
    LtBeqStrictTotal EdgeVertexCandidate.lt EdgeVertexCandidate.beq := by
  refine ⟨fun a b => ?_, fun a b c hab hbc => ?_, fun a => ?_⟩
  · unfold ExactlyOne
    simp only [ev_lt_iff, ev_beq_iff]
    omega
  · rw [ev_lt_iff] at hab hbc ⊢
    omega
  · have h : ¬ (EdgeVertexCandidate.lt a a = true) := by
      rw [ev_lt_iff]; omega
    cases hb : EdgeVertexCandidate.lt a a
    · rfl
    · exact absurd hb h

/-- EE comparators form a strict total order (the `(min, max)` pair makes
trichotomy mesh with the symmetric equality). -/
theorem ee_strict_total :
    LtBeqStrictTotal EdgeEdgeCandidate.lt EdgeEdgeCandidate.beq := by
  refine ⟨fun a b => ?_, fun a b c hab hbc => ?_, fun a => ?_⟩
  · unfold ExactlyOne
    simp only [ee_lt_iff, ee_beq_iff]
    omega
  · rw [ee_lt_iff] at hab hbc ⊢
    omega
  · have h : ¬ (EdgeEdgeCandidate.lt a a = true) := by
      rw [ee_lt_iff]; omega
    cases hb : EdgeEdgeCandidate.lt a a
    · rfl
    · exact absurd hb h

/-- EF comparators form a strict total order. -/
theorem ef_strict_total :
    LtBeqStrictTotal EdgeFaceCandidate.lt EdgeFaceCandidate.beq := by
  refine ⟨fun a b => ?_, fun a b c hab hbc => ?_, fun a => ?_⟩
  · unfold ExactlyOne
    simp only [ef_lt_iff, ef_beq_iff]
    omega
  · rw [ef_lt_iff] at hab hbc ⊢
    omega
  · have h : ¬ (EdgeFaceCandidate.lt a a = true) := by
      rw [ef_lt_iff]; omega
    cases hb : EdgeFaceCandidate.lt a a
    · rfl
    · exact absurd hb h

/-- FV comparators form a strict total order. -/
theorem fv_strict_total :
    LtBeqStrictTotal FaceVertexCandidate.lt FaceVertexCandidate.beq := by
  refine ⟨fun a b => ?_, fun a b c hab hbc => ?_, fun a => ?_⟩
  · unfold ExactlyOne
    simp only [fv_lt_iff, fv_beq_iff]
    omega
  · rw [fv_lt_iff] at hab hbc ⊢
    omega
  · have h : ¬ (FaceVertexCandidate.lt a a = true) := by
      rw [fv_lt_iff]; omega
    cases hb : FaceVertexCandidate.lt a a
    · rfl
    · exact absurd hb h

/-- C9: for each candidate kind, `operator<` together with `operator==`
is a strict total order over all (unrestricted, hence also sentinel or
out-of-range) index values: exactly one of `a < b`, `b < a`, `a == b`
holds, `<` is transitive, and `<` is irreflexive. -/
theorem comparators_strict_total_order :
    LtBeqStrictTotal VertexVertexCandidate.lt VertexVertexCandidate.beq
    ∧ LtBeqStrictTotal EdgeVertexCandidate.lt EdgeVertexCandidate.beq
    ∧ LtBeqStrictTotal EdgeEdgeCandidate.lt EdgeEdgeCandidate.beq
    ∧ LtBeqStrictTotal EdgeFaceCandidate.lt EdgeFaceCandidate.beq
    ∧ LtBeqStrictTotal FaceVertexCandidate.lt FaceVertexCandidate.beq :=
  ⟨vv_strict_total, ev_strict_total, ee_strict_total, ef_strict_total,
    fv_strict_total⟩

/-- Witness for C9: transitivity of the VV and EE orders applied at
concrete candidates, with both hypotheses discharged by evaluation. -/
theorem comparators_strict_total_order_witness :
    VertexVertexCandidate.lt ⟨0, 1⟩ ⟨2, 0⟩ = true
    ∧ EdgeEdgeCandidate.lt ⟨5, 0⟩ ⟨2, 6⟩ = true := by
  have h := comparators_strict_total_order
  unfold LtBeqStrictTotal at h
  obtain ⟨⟨-, hvt, -⟩, -, ⟨-, het, -⟩, -, -⟩ := h
  exact ⟨hvt ⟨0, 1⟩ ⟨1, 7⟩ ⟨2, 0⟩ (by decide) (by decide),
    het ⟨5, 0⟩ ⟨1, 4⟩ ⟨2, 6⟩ (by decide) (by decide)⟩

/-- The EV loop of the OBJ writer emits no object header. -/
theorem filter_isHeader_ev_go {α : Type} (V : Int → α)
    (E : Int → Nat → Int) (i : Int) (l : List EdgeVertexCandidate) :
    (save_obj_ev_go V E i l).filter ObjLine.isHeader = [] := by
  induction l generalizing i with
  | nil => rfl
  | cons c rest ih => simp [save_obj_ev_go, ObjLine.isHeader, ih]

/-- The EE loop of the OBJ writer emits no object header. -/
theorem filter_isHeader_ee_go {α : Type} (V : Int → α)
    (E : Int → Nat → Int) (i : Int) (l : List EdgeEdgeCandidate) :
    (save_obj_ee_go V E i l).filter ObjLine.isHeader = [] := by
  induction l generalizing i with
  | nil => rfl
  | cons c rest ih => simp [save_obj_ee_go, ObjLine.isHeader, ih]

/-- The FV loop of the OBJ writer emits no object header. -/
theorem filter_isHeader_fv_go {α : Type} (V : Int → α)
    (F : Int → Nat → Int) (i : Int) (l : List FaceVertexCandidate) :
    (save_obj_fv_go V F i l).filter ObjLine.isHeader = [] := by
  induction l generalizing i with
  | nil => rfl
  | cons c rest ih => simp [save_obj_fv_go, ObjLine.isHeader, ih]

/-- C4 counterexample: the claim asserts every successful `save_obj`
output contains four object headers including `o EF`; on the S5 container
the save succeeds yet no `o EF` header appears, because
`Candidates::save_obj` serializes only the EV, EE and FV sequences. -/
theorem save_obj_no_EF_counterexample :
    (exS5.save_obj true true exV exE exF).1 = true
    ∧ @ObjLine.obj_header Int "EF"
        ∉ (exS5.save_obj true true exV exE exF).2 := by
  decide

/-- C4 (amended): on every successful `save_obj`, the produced OBJ content
contains exactly three named objects, prefixed by the headers `o EV`,
`o EE` and `o FV`, in that order; no `o EF` object is written. -/
theorem save_obj_three_headers {α : Type} (c : Candidates)
    (write_ok : Bool) (V : Int → α) (E F : Int → Nat → Int) :
    ((c.save_obj true write_ok V E F).2).filter ObjLine.isHeader
      = [.obj_header "EV", .obj_header "EE", .obj_header "FV"] := by
  simp [Candidates.save_obj, Candidates.saveObjLines, save_obj_ev,
    save_obj_ee, save_obj_fv, List.filter_append, filter_isHeader_ev_go,
    filter_isHeader_ee_go, filter_isHeader_fv_go, ObjLine.isHeader]

/-- C5: evaluation of the OBJ writer on a container with one EV candidate
`(e=0, v=2)` and one EE candidate `(e0=0, e1=1)`, with edge table
`E(e,j) = 2e+j` and identity position rows.  The file carries 7 vertex
lines in total, yet the EE block's connectivity records are `l 1 2` and
`l 3 4` because `int i = 1` restarts in each `save_obj` overload; under
the whole-file 1-based numbering required by the claim (and by the OBJ
format) the EE candidate's own vertices are numbers 4–7, so `l 1 2`
points at the EV candidate's vertices instead. -/
theorem save_obj_counter_resets_per_block :
    exC5.saveObjLines exV exE exF
      = [.obj_header "EV", .vertex 0, .vertex 1, .vertex 2, .seg 1 2,
         .obj_header "EE", .vertex 0, .vertex 1, .vertex 2, .vertex 3,
         .seg 1 2, .seg 3 4, .obj_header "FV"]
    ∧ ((exC5.saveObjLines exV exE exF).filter ObjLine.isVertex).length
        = 7 := by
  decide

end ipc
